import Mathlib

/-!
Verification development for the ePaper-Spotify-Clock repository.

Shallow embedding of the core logic of `src/lib/spotify_user.py`,
`src/lib/calendar.py` and `src/lib/draw.py`:

* `SpotifyTrackMetadata` mirrors the `@dataclass` of the same name
  (`spotify_user.py` lines 18-27). The `timestamp` field always holds a
  Python `datetime` object (`dt.now()` at construction, a tz-aware
  `datetime` decoded by `dataclasses_json` when read from the cache),
  modelled here by its epoch seconds as an `Int`; operations that require
  a number instead of a `datetime` object — `dt.fromtimestamp` at
  `calendar.py` 78 and `json.dump` at `spotify_user.py` 254 — therefore
  raise `TypeError`, modelled as explicit error outcomes.
* `evaluateRedraw` mirrors the cache-comparison prelude of
  `Calendar.draw` (`calendar.py` lines 56-85), which raises whenever a
  cached track is present.
* `calendarDraw` mirrors `Calendar.draw` (`calendar.py` lines 52-122) as
  an effect trace with exception and `sys.exit` outcomes and the
  resulting cache-file state.
* `to_dict` / `from_dict` / `write_track_to_cache` /
  `read_track_from_cache` mirror the cache round trip
  (`spotify_user.py` lines 247-267) over an explicit file state; the
  write raises on the unconverted `datetime` timestamp and truncates the
  file.
* `get_context_from_json` mirrors `SpotifyUser.get_context_from_json`
  (`spotify_user.py` lines 203-245), taking the network fetchers as an
  oracle and instrumenting the number of fetcher invocations.
* `fetchCurrentAux` / `fetchRecentAux` mirror the retry loops of
  `SpotifyUser.fetch_current_track_from_spotipy` and
  `SpotifyUser.fetch_recently_played_track_from_spotipy`
  (`spotify_user.py` lines 102-127), with the sequence of network
  outcomes supplied as an environment and the performed queries and
  token refreshes recorded as an event trace.
* `find_end_of_line` / `draw_text_wrapped` mirror
  `Draw.draw_text_wrapped` (`draw.py` lines 192-259), with the PIL
  font's `getbbox` supplied as an abstract measure.
* `dither_album_art` / `draw_album_image` mirror `Draw.dither_album_art`
  and `Draw.draw_album_image` (`draw.py` lines 280-309 and 143-172)
  over an abstract file-existence predicate.
-/

namespace EPaperSpotify

/-- Mirrors the `SpotifyTrackMetadata` dataclass (`spotify_user.py` 18-27).
`timestamp` is declared with `field(compare=False)` in the source, so it is
excluded from structural equality; see `metaEq`. The field always holds a
`datetime` object — never a number — represented here by its epoch
seconds. -/
structure SpotifyTrackMetadata where
  track_name : String
  artist_name : String
  context_type : String
  context_name : String
  track_image_link : String
  album_name : String
  timestamp : Int
  deriving Repr, DecidableEq

/-- The dataclass `==` of `SpotifyTrackMetadata`: structural over every field
except `timestamp` (which has `compare=False`). -/
def metaEq (a b : SpotifyTrackMetadata) : Bool :=
  a.track_name == b.track_name &&
  a.artist_name == b.artist_name &&
  a.context_type == b.context_type &&
  a.context_name == b.context_name &&
  a.track_image_link == b.track_image_link &&
  a.album_name == b.album_name

/-- The placeholder track synthesized in `Calendar.draw` (`calendar.py` 64-72)
when both the remote fetch and the cache fail. -/
def naTrack (now : Int) : SpotifyTrackMetadata :=
  { track_name := "N/A"
    artist_name := "N/A"
    context_type := "N/A"
    context_name := "N/A"
    track_image_link := "N/A"
    album_name := "N/A"
    timestamp := now }

/-- The outcome of the cache-comparison prelude of `Calendar.draw`. -/
structure RedrawDecision where
  effectiveTrack : SpotifyTrackMetadata
  shouldRedraw : Bool
  shouldDownloadAlbum : Bool
  deriving Repr, DecidableEq

/-- The `TypeError` raised by `dt.fromtimestamp` when its argument is a
`datetime` object rather than a number (`calendar.py` 78). -/
def fromtimestampTypeError : String :=
  "TypeError: an integer is required (got type datetime.datetime)"

/-- Mirrors the cache-comparison prelude of `Calendar.draw`
(`calendar.py` 56-85). `most_recent` is reassigned in every branch of the
first `if`, so the guard of the second `if` (line 77) reduces to `cached`
being present — and line 78 then computes
`dt.fromtimestamp(last_drawn_track.timestamp)`. The `timestamp` attribute
always holds a `datetime` object (`dt.now()` at construction; a tz-aware
`datetime` decoded by `dataclasses_json` when read back from the cache),
never a number, so that call raises `TypeError` before `should_redraw` is
assigned: the comparison and staleness logic of lines 79-85 is unreachable
whenever a cached track is present. -/
def evaluateRedraw (now : Int) (fetched cached : Option SpotifyTrackMetadata) :
    Except String RedrawDecision :=
  let state : SpotifyTrackMetadata × Bool :=
    match fetched with
    | none =>
      match cached with
      | none => (naTrack now, true)
      | some c => (c, false)
    | some t => (t, true)
  match cached with
  | some _ => Except.error fromtimestampTypeError
  | none =>
    Except.ok
      { effectiveTrack := state.1
        shouldRedraw := state.2
        shouldDownloadAlbum := true }

/-- C1 (code bug): with both a fetched and a cached track present,
`Calendar.draw` never computes the claimed redraw decision —
`dt.fromtimestamp` at `calendar.py` 78, applied to the cached track's
`datetime` timestamp, raises an uncaught `TypeError` before
`should_redraw` or `should_download_album` is assigned. -/
theorem redraw_decision_both_present_raises (now : Int)
    (f c : SpotifyTrackMetadata) :
    evaluateRedraw now (some f) (some c) =
      Except.error fromtimestampTypeError := rfl

/-- C2 (code bug): when the fetch returns `None` and a cached track is
present, line 76 does set `should_redraw = False` with the cached track as
the effective track, but the guard at line 77 still holds and line 78 then
raises the same uncaught `TypeError` — the cycle aborts instead of reusing
the last good render. -/
theorem redraw_decision_fetch_failed_raises (now : Int)
    (c : SpotifyTrackMetadata) :
    evaluateRedraw now none (some c) =
      Except.error fromtimestampTypeError := rfl

/-- C9: when the fetch returns `None` and the cache is empty, `Calendar.draw`
synthesizes an all-"N/A" placeholder track, redraws, and refetches album
art; no timestamp arithmetic runs on this path. -/
theorem redraw_decision_both_absent (now : Int) :
    evaluateRedraw now none none =
      Except.ok
        { effectiveTrack :=
            { track_name := "N/A"
              artist_name := "N/A"
              context_type := "N/A"
              context_name := "N/A"
              track_image_link := "N/A"
              album_name := "N/A"
              timestamp := now }
          shouldRedraw := true
          shouldDownloadAlbum := true } := rfl

/-- A value of the dict built by `SpotifyTrackMetadata.to_dict()`: a JSON
string, a JSON number, or a raw `datetime` object left unconverted —
`dataclasses_json` converts datetimes to numeric timestamps only in
`to_json` (through its JSON encoder), not in `to_dict`. -/
inductive JValue where
  | str (s : String)
  | num (n : Int)
  | datetime (seconds : Int)
  deriving Repr, DecidableEq

/-- Mirrors `SpotifyTrackMetadata.to_dict()` as used by
`write_track_to_cache` (`spotify_user.py` 254): a keyed record of the seven
dataclass fields. The string fields become JSON strings; the `timestamp`
field keeps the raw `datetime` object. -/
def to_dict (t : SpotifyTrackMetadata) : List (String × JValue) :=
  [("track_name", JValue.str t.track_name),
   ("artist_name", JValue.str t.artist_name),
   ("context_type", JValue.str t.context_type),
   ("context_name", JValue.str t.context_name),
   ("track_image_link", JValue.str t.track_image_link),
   ("album_name", JValue.str t.album_name),
   ("timestamp", JValue.datetime t.timestamp)]

/-- Whether `json.dump` can serialize the value: a raw `datetime` cannot be. -/
def jsonSerializable : JValue → Bool
  | JValue.datetime _ => false
  | _ => true

/-- The exception raised by `json.dump` on the unconverted `datetime`
timestamp (`spotify_user.py` 254). -/
def jsonDumpTypeError : String :=
  "TypeError: Object of type datetime is not JSON serializable"

/-- Looks a string field up in a decoded JSON record. -/
def lookupStr (d : List (String × JValue)) (k : String) : Option String :=
  match d.lookup k with
  | some (JValue.str s) => some s
  | _ => none

/-- Looks the numeric timestamp field up in a decoded JSON record. -/
def lookupNum (d : List (String × JValue)) (k : String) : Option Int :=
  match d.lookup k with
  | some (JValue.num n) => some n
  | _ => none

/-- Mirrors `SpotifyTrackMetadata.from_dict()` as used by
`read_track_from_cache` (`spotify_user.py` 263): each dataclass field is
decoded from the record; a missing or ill-typed field is a parse failure.
The stored JSON number for the `datetime`-annotated `timestamp` field is
decoded by `dataclasses_json` into a tz-aware `datetime` object, modelled
here by its epoch seconds. -/
def from_dict (d : List (String × JValue)) : Option SpotifyTrackMetadata := do
  let tn ← lookupStr d "track_name"
  let an ← lookupStr d "artist_name"
  let ct ← lookupStr d "context_type"
  let cn ← lookupStr d "context_name"
  let il ← lookupStr d "track_image_link"
  let al ← lookupStr d "album_name"
  let ts ← lookupNum d "timestamp"
  pure { track_name := tn, artist_name := an, context_type := ct,
         context_name := cn, track_image_link := il, album_name := al,
         timestamp := ts }

/-- The possible states of the `cache/context.json` file: absent, holding a
parseable JSON record, or truncated so that `json.load` fails. -/
inductive CacheFile where
  | absent
  | valid (d : List (String × JValue))
  | corrupt
  deriving Repr, DecidableEq

/-- Mirrors `SpotifyUser.write_track_to_cache` (`spotify_user.py` 247-256).
`open(..., 'w+')` truncates the file, then `json.dump(obj.to_dict(), ...)`
streams the record until it meets a value it cannot serialize. The record
always carries the raw `datetime` timestamp, so `json.dump` raises
`TypeError`, which is not among the caught classes (`FileNotFoundError`,
`PermissionError`) and propagates, leaving the file truncated and
unparseable. Returns the exception outcome together with the resulting
file state. -/
def write_track_to_cache (_file : CacheFile) (obj : SpotifyTrackMetadata) :
    Except String Unit × CacheFile :=
  if (to_dict obj).all (fun kv => jsonSerializable kv.2) then
    (Except.ok (), CacheFile.valid (to_dict obj))
  else (Except.error jsonDumpTypeError, CacheFile.corrupt)

/-- Mirrors `SpotifyUser.read_track_from_cache` (`spotify_user.py` 258-267):
an absent file yields `None`; a truncated file fails `json.load` with
`JSONDecodeError`, which is caught and yields `None`; a parseable record is
decoded with `from_dict`. -/
def read_track_from_cache : CacheFile → Option SpotifyTrackMetadata
  | CacheFile.absent => none
  | CacheFile.corrupt => none
  | CacheFile.valid d => from_dict d

/-- Every cache write raises: the serialized record always carries the raw
`datetime` timestamp. -/
theorem write_always_raises (file : CacheFile) (t : SpotifyTrackMetadata) :
    write_track_to_cache file t =
      (Except.error jsonDumpTypeError, CacheFile.corrupt) := by
  simp [write_track_to_cache, to_dict, jsonSerializable]

/-- C5 (code bug): the cache round trip never reproduces the track. The
write raises an uncaught `TypeError` on the `datetime` timestamp and leaves
`cache/context.json` truncated; the following read then returns `None`
rather than a value structurally equal to the written track. -/
theorem cache_roundtrip_raises (t : SpotifyTrackMetadata) (file : CacheFile) :
    (write_track_to_cache file t).1 = Except.error jsonDumpTypeError ∧
    read_track_from_cache (write_track_to_cache file t).2 = none := by
  rw [write_always_raises]
  exact ⟨rfl, rfl⟩

/-- Observable side effects of `Calendar.draw` (`calendar.py` 86-118). -/
inductive DrawEffect where
  | clearImage
  | buildImage (track : SpotifyTrackMetadata) (downloadAlbum : Bool)
  | initEPD
  | init4Gray
  | displayFrame (fourGray : Bool)
  | sleepEPD
  deriving Repr, DecidableEq

/-- Result of one `Calendar.draw` cycle: the cycle completes (effect trace,
updated `did_epd_init` flag, resulting cache file), exits via `sys.exit(1)`
on the 45-second EPD-init timeout, or aborts with an uncaught exception. -/
inductive DrawResult where
  | completed (effects : List DrawEffect) (didEpdInit : Bool) (cache : CacheFile)
  | exited (effects : List DrawEffect) (cache : CacheFile)
  | raised (msg : String) (effects : List DrawEffect) (cache : CacheFile)
  deriving Repr, DecidableEq

/-- The cache file a `Calendar.draw` cycle leaves behind. -/
def DrawResult.cache : DrawResult → CacheFile
  | DrawResult.completed _ _ f => f
  | DrawResult.exited _ f => f
  | DrawResult.raised _ _ f => f

/-- The `'context'` object of a Spotify payload: its `'type'` and `'uri'`
keys. -/
structure ContextJson where
  type : String
  uri : String
  deriving Repr, DecidableEq

/-- The parts of a track payload consumed by
`SpotifyUser.get_context_from_json`: the optional `'context'` object and the
`'album'`/`'uri'` of the payload's own `'track'`-or-`'item'` object. -/
structure TrackJsonInput where
  context : Option ContextJson
  album_uri : String
  deriving Repr, DecidableEq

/-- Mirrors `SpotifyUser.get_context_from_json` (`spotify_user.py` 203-245).
The `self.sp.playlist` / `self.sp.album` / `self.sp.artist` display-name
lookups are a single oracle `fetchName kind uri`; `none` models the lookup
raising `SpotifyException`. The third component of the result counts the
fetcher invocations performed. With no context object, `context_type`
defaults to `"album"` and the uri to the track's own album uri. On a failed
lookup the name stays at its `""` initialization unless the context is a
playlist, in which case it degrades to `"DJ"`; a `"collection"` context has
no fetcher and resolves to `"Liked Songs"`. -/
def get_context_from_json (fetchName : String → String → Option String)
    (tj : TrackJsonInput) : String × String × Nat :=
  let ctx : String × String :=
    match tj.context with
    | some cj => (cj.type, cj.uri)
    | none => ("album", tj.album_uri)
  let context_type := ctx.1
  let context_uri := ctx.2
  let hasFetcher := context_type == "playlist" || context_type == "album" ||
    context_type == "artist"
  if hasFetcher then
    match fetchName context_type context_uri with
    | some name => (context_type, name, 1)
    | none =>
      (context_type, if context_type == "playlist" then "DJ" else "", 1)
  else if context_type == "collection" then (context_type, "Liked Songs", 0)
  else (context_type, "", 0)

/-- C6: (1) a playlist context whose display-name lookup fails resolves to
the sentinel `"DJ"`; (2) a payload with no context object resolves with
context type `"album"`, looking the name up from the track's own album uri;
(3) a `"collection"` context resolves to `"Liked Songs"` with zero fetcher
invocations. -/
theorem context_resolution
    (fetchName : String → String → Option String) (uri album_uri : String) :
    (fetchName "playlist" uri = none →
      get_context_from_json fetchName
        { context := some { type := "playlist", uri := uri },
          album_uri := album_uri } = ("playlist", "DJ", 1)) ∧
    (get_context_from_json fetchName { context := none, album_uri := album_uri } =
      ("album", (fetchName "album" album_uri).getD "", 1)) ∧
    (get_context_from_json fetchName
        { context := some { type := "collection", uri := uri },
          album_uri := album_uri } = ("collection", "Liked Songs", 0)) := by
  refine ⟨fun h => ?_, ?_, ?_⟩
  · simp [get_context_from_json, h]
  · cases h : fetchName "album" album_uri <;> simp [get_context_from_json, h]
  · rfl

/-- Witness for `context_resolution` with an oracle whose every lookup
fails. -/
theorem context_resolution_witness :
    get_context_from_json (fun _ _ => none)
        { context := some { type := "playlist", uri := "spotify:playlist:37i" },
          album_uri := "spotify:album:5Z9" } = ("playlist", "DJ", 1) :=
  (context_resolution (fun _ _ => none) "spotify:playlist:37i"
    "spotify:album:5Z9").1 rfl

/-- Outcome of one `spotipy` API call: a payload, a recoverable error
(`SpotifyException` or `ReadTimeout`, carrying `str(e)`), or a
`requests.exceptions.ConnectionError`. -/
inductive SpotipyResponse (α : Type) where
  | ok (payload : α)
  | spotifyError (msg : String)
  | connectionError
  deriving Repr, DecidableEq

/-- Events recorded during a fetch loop: an API query and a
`update_spotipy_token()` call. -/
inductive FetchEvent where
  | query
  | refreshToken
  deriving Repr, DecidableEq

/-- Tests whether `needle` occurs as a contiguous substring of `hay` (the Python `in`
operator on strings). -/
def strContains (hay needle : String) : Bool :=
  hay.toList.tails.any (fun t => needle.toList.isPrefixOf t)

/-- The message tested by `fetch_recently_played_track_from_spotipy`
(`spotify_user.py` 121). -/
def expiredTokenMsg : String := "The access token expired"

/-- Loop body of `SpotifyUser.fetch_current_track_from_spotipy`
(`spotify_user.py` 102-112). `resp i` is the environment's outcome for the
`i`-th API call; the fuel is the remaining iterations of `for _ in
range(3)`. On a `SpotifyException`/`ReadTimeout` the token is refreshed and
the loop retries; on a `ConnectionError` the function returns `None` at
once; exhausting the loop returns `None`. -/
def fetchCurrentAux (resp : Nat → SpotipyResponse α) :
    Nat → Nat → Option α × List FetchEvent
  | _, 0 => (none, [])
  | i, k + 1 =>
    match resp i with
    | .ok p => (some p, [FetchEvent.query])
    | .spotifyError _ =>
      let rest := fetchCurrentAux resp (i + 1) k
      (rest.1, FetchEvent.query :: FetchEvent.refreshToken :: rest.2)
    | .connectionError => (none, [FetchEvent.query])

/-- Runs `SpotifyUser.fetch_current_track_from_spotipy`: three attempts. -/
def fetch_current_track_from_spotipy (resp : Nat → SpotipyResponse α) :
    Option α × List FetchEvent :=
  fetchCurrentAux resp 0 3

/-- Loop body of `SpotifyUser.fetch_recently_played_track_from_spotipy`
(`spotify_user.py` 116-127). Identical to `fetchCurrentAux` except that on a
recoverable error the token is refreshed only when `str(e)` contains
`"The access token expired"`. -/
def fetchRecentAux (resp : Nat → SpotipyResponse α) :
    Nat → Nat → Option α × List FetchEvent
  | _, 0 => (none, [])
  | i, k + 1 =>
    match resp i with
    | .ok p => (some p, [FetchEvent.query])
    | .spotifyError m =>
      let rest := fetchRecentAux resp (i + 1) k
      (rest.1, FetchEvent.query ::
        ((if strContains m expiredTokenMsg then [FetchEvent.refreshToken]
          else []) ++ rest.2))
    | .connectionError => (none, [FetchEvent.query])

/-- Runs `SpotifyUser.fetch_recently_played_track_from_spotipy`: three
attempts. -/
def fetch_recently_played_track_from_spotipy (resp : Nat → SpotipyResponse α) :
    Option α × List FetchEvent :=
  fetchRecentAux resp 0 3

/-- The payload of `current_user_playing_track()`: the API may return `None`
(`null`), a dict without an `'item'` key, or a dict with one; in the last
case the carried track is the value `extract_track_from_current_payload`
builds from it. -/
inductive CurrentPayload where
  | null
  | withoutItem
  | withItem (t : SpotifyTrackMetadata)
  deriving Repr, DecidableEq

/-- The payload of `current_user_recently_played(1)`, analogously keyed on
its `'items'` key and `extract_track_from_recent_payload`. -/
inductive RecentPayload where
  | null
  | withoutItems
  | withItems (t : SpotifyTrackMetadata)
  deriving Repr, DecidableEq

/-- Mirrors `SpotifyUser.get_most_recent_spotipy_info`
(`spotify_user.py` 80-90); `sp` models `self.sp` being set. The extraction
helpers are folded into the payloads' carried tracks. -/
def get_most_recent_spotipy_info (sp : Bool)
    (respC : Nat → SpotipyResponse CurrentPayload)
    (respR : Nat → SpotipyResponse RecentPayload) :
    Option SpotifyTrackMetadata :=
  if !sp then none
  else
    match (fetch_current_track_from_spotipy respC).1 with
    | some (CurrentPayload.withItem t) => some t
    | _ =>
      match (fetch_recently_played_track_from_spotipy respR).1 with
      | some (RecentPayload.withItems t) => some t
      | _ => none

/-- Queries performed by `fetchCurrentAux` never exceed the remaining fuel. -/
theorem fetchCurrentAux_query_count (resp : Nat → SpotipyResponse α) :
    ∀ k i, ((fetchCurrentAux resp i k).2.count FetchEvent.query) ≤ k := by
  intro k
  induction k with
  | zero => intro i; simp [fetchCurrentAux]
  | succ n ih =>
    intro i
    cases h : resp i <;>
      simp [fetchCurrentAux, h, List.count_cons]
    exact ih (i + 1)

/-- Queries performed by `fetchRecentAux` never exceed the remaining fuel. -/
theorem fetchRecentAux_query_count (resp : Nat → SpotipyResponse α) :
    ∀ k i, ((fetchRecentAux resp i k).2.count FetchEvent.query) ≤ k := by
  intro k
  induction k with
  | zero => intro i; simp [fetchRecentAux]
  | succ n ih =>
    intro i
    cases h : resp i <;>
      simp [fetchRecentAux, h, List.count_cons, List.count_append]
    case spotifyError m =>
      cases hm : strContains m expiredTokenMsg <;> simp [hm, List.count_cons]
      · exact ih (i + 1)
      · exact ih (i + 1)

/-- C3 counterexample: the recently-played query, failing three times with a
recoverable rate-limit error (a `SpotifyException` whose message does not
contain `"The access token expired"`), is retried with NO token refresh at
all — its event trace is three bare queries — contradicting the claim that
on each recoverable failure the access token is refreshed before the next
attempt. -/
theorem recent_retry_without_refresh :
    fetch_recently_played_track_from_spotipy
        (fun _ => SpotipyResponse.spotifyError (α := RecentPayload)
          "http status: 429, code: -1, too many requests") =
      (none, [FetchEvent.query, FetchEvent.query, FetchEvent.query]) ∧
    FetchEvent.refreshToken ∉
      (fetch_recently_played_track_from_spotipy
        (fun _ => SpotipyResponse.spotifyError (α := RecentPayload)
          "http status: 429, code: -1, too many requests")).2 := by
  constructor
  · rfl
  · decide

/-- C3 (amended): each of the two query kinds is attempted at most 3 times;
under recoverable failures, the currently-playing query refreshes the token
after every failed attempt (trace `query, refresh` three times), while the
recently-played query refreshes the token only when the error message
contains `"The access token expired"` and otherwise retries without any
refresh. -/
theorem fetch_retry_token_refresh (α : Type)
    (resp : Nat → SpotipyResponse α) (m : String) :
    ((fetch_current_track_from_spotipy resp).2.count FetchEvent.query ≤ 3 ∧
      (fetch_recently_played_track_from_spotipy resp).2.count
        FetchEvent.query ≤ 3) ∧
    (fetch_current_track_from_spotipy
        (fun _ => SpotipyResponse.spotifyError (α := α) m) =
      (none, [FetchEvent.query, FetchEvent.refreshToken, FetchEvent.query,
        FetchEvent.refreshToken, FetchEvent.query, FetchEvent.refreshToken])) ∧
    (fetch_recently_played_track_from_spotipy
        (fun _ => SpotipyResponse.spotifyError (α := α) m) =
      (none,
        if strContains m expiredTokenMsg then
          [FetchEvent.query, FetchEvent.refreshToken, FetchEvent.query,
            FetchEvent.refreshToken, FetchEvent.query, FetchEvent.refreshToken]
        else [FetchEvent.query, FetchEvent.query, FetchEvent.query])) := by
  refine ⟨⟨fetchCurrentAux_query_count resp 3 0,
    fetchRecentAux_query_count resp 3 0⟩, ?_, ?_⟩
  · rfl
  · cases hm : strContains m expiredTokenMsg <;>
      simp [fetch_recently_played_track_from_spotipy, fetchRecentAux, hm]

/-- C8: (1) a `ConnectionError` on any attempt makes either query return
`None` at once, performing that one query and nothing further; (2) when
every attempt fails recoverably, exhausting the 3-attempt budget returns
`None` for both queries; (3) every failure — here an unreachable host on
every call — reaches the caller of `get_most_recent_spotipy_info` as a
normal `None` return (the embedding is a total function into `Option`,
mirroring that every raised exception class is caught). -/
theorem fetch_failure_is_normal_none (α : Type)
    (resp : Nat → SpotipyResponse α) (i k : Nat) :
    (resp i = SpotipyResponse.connectionError →
      fetchCurrentAux resp i (k + 1) = (none, [FetchEvent.query]) ∧
      fetchRecentAux resp i (k + 1) = (none, [FetchEvent.query])) ∧
    ((∀ j, ∃ m, resp j = SpotipyResponse.spotifyError m) →
      (fetch_current_track_from_spotipy resp).1 = none ∧
      (fetch_recently_played_track_from_spotipy resp).1 = none) ∧
    (get_most_recent_spotipy_info true (fun _ => SpotipyResponse.connectionError)
      (fun _ => SpotipyResponse.connectionError) = none) := by
  refine ⟨fun h => ?_, fun h => ?_, rfl⟩
  · constructor <;> simp [fetchCurrentAux, fetchRecentAux, h]
  · obtain ⟨m0, h0⟩ := h 0
    obtain ⟨m1, h1⟩ := h 1
    obtain ⟨m2, h2⟩ := h 2
    constructor <;>
      simp [fetch_current_track_from_spotipy, fetchCurrentAux,
        fetch_recently_played_track_from_spotipy, fetchRecentAux, h0, h1, h2]

/-- Witness for `fetch_failure_is_normal_none`: a host unreachable on the
first attempt aborts the currently-playing query with a single query event,
and a query failing with timeouts on every attempt exhausts its budget to
`None`. -/
theorem fetch_failure_is_normal_none_witness :
    (fetchCurrentAux (α := CurrentPayload)
        (fun _ => SpotipyResponse.connectionError) 0 3 =
      (none, [FetchEvent.query])) ∧
    (fetch_current_track_from_spotipy (α := CurrentPayload)
        (fun _ => SpotipyResponse.spotifyError "read timed out")).1 = none :=
  ⟨((fetch_failure_is_normal_none CurrentPayload
      (fun _ => SpotipyResponse.connectionError) 0 2).1 rfl).1,
    ((fetch_failure_is_normal_none CurrentPayload
      (fun _ => SpotipyResponse.spotifyError "read timed out") 0 2).2.1
      (fun _ => ⟨"read timed out", rfl⟩)).1⟩

/-- Python's `str.isspace` on the ASCII whitespace characters occurring in
display text. -/
def pyIsSpace (c : Char) : Bool :=
  c = ' ' || c = '\t' || c = '\n' || c = '\x0d' || c = '\x0b' || c = '\x0c'

/-- Python slicing `str[:n]`. -/
def strTake (s : String) (n : Nat) : String :=
  String.mk (s.toList.take n)

/-- Python slicing `str[n:]`. -/
def strDrop (s : String) (n : Nat) : String :=
  String.mk (s.toList.drop n)

/-- Python indexing `str[i]`, including the negative indices reachable in
`find_end_of_line` (`str[-1]` is the last character). -/
def pyCharAt (s : String) (i : Int) : Char :=
  if i < 0 then s.toList.getD (s.length - (-i).toNat) ' '
  else s.toList.getD i.toNat ' '

/-- A PIL `ImageFont` as consumed by `draw_text_wrapped`: `bboxWidth s` is
`right - left` and `bboxBottom s` is `bottom` of `font.getbbox(s)`. -/
structure FontMetrics where
  bboxWidth : String → Nat
  bboxBottom : String → Nat

/-- The `while end_index >= 0` loop of `find_end_of_line`
(`draw.py` 218-227). The fuel argument is `end_index + 1` (so fuel 0 is the
loop exiting with `end_index == -1`); `bottom` is the `bottom` of the most
recent `font.getbbox` call. A candidate index is accepted when it lies on
the end of the string or a whitespace boundary and the measured width of the
prefix is strictly below `w`. -/
def findEOLLoop (font : FontMetrics) (s : String) (w : Nat) :
    Nat → Nat → Int × Nat
  | 0, bottom => (-1, bottom)
  | e + 1, bottom =>
    if e = s.length ∨ pyIsSpace (pyCharAt s ((e : Int) - 1)) then
      let b := font.bboxBottom (strTake s e)
      if font.bboxWidth (strTake s e) < w then ((e : Int), b)
      else findEOLLoop font s w e b
    else findEOLLoop font s w e bottom

/-- Mirrors `find_end_of_line` (`draw.py` 210-227). The initial
`font.getbbox(str)` supplies the starting `bottom`; the starting candidate
`int(w / avg_char_width)` with `avg_char_width = w / len(str)` is
`len(str)` in exact arithmetic (and is clamped to `len(str)` anyway). -/
def find_end_of_line (font : FontMetrics) (s : String) (w : Nat) : Int × Nat :=
  findEOLLoop font s w (s.length + 1) (font.bboxBottom s)

/-- One `image_draw.text` call issued by `draw_text_wrapped`. -/
structure DrawnLine where
  text : String
  x : Int
  y : Int
  deriving Repr, DecidableEq

/-- The second-line start index (`draw.py` 243-244): after the first break,
one whitespace character at the break position is skipped. -/
def secondLineStart (text : String) (firstLineEnd : Nat) : Nat :=
  if pyIsSpace (text.toList.getD firstLineEnd ' ') then firstLineEnd + 1
  else firstLineEnd

/-- The second-line text (`draw.py` 248-252): when the remainder's own break
index falls strictly inside it, the remainder is cut there and `"..."` is
appended; otherwise the remainder is drawn whole. -/
def secondLineText (font : FontMetrics) (remaining : String) (width : Nat) :
    String :=
  if 0 < (find_end_of_line font remaining width).1 ∧
      (find_end_of_line font remaining width).1 < (remaining.length : Int) then
    strTake remaining (find_end_of_line font remaining width).1.toNat ++ "..."
  else remaining

/-- Mirrors `Draw.draw_text_wrapped` (`draw.py` 192-259), returning the
drawn lines and the Python return value (the y coordinate below the drawn
text). Whitespace-only input draws nothing; a first line that cannot break
anywhere is drawn whole as overflow; otherwise the first line is the found
prefix, and the remainder is drawn as a second line via `secondLineText`. -/
def draw_text_wrapped (font : FontMetrics) (text : String) (initX initY : Int)
    (width : Nat) (linespacing : Nat) (indent : Nat) :
    List DrawnLine × Int :=
  if text.toList.all pyIsSpace then ([], initY)
  else
    let fr := find_end_of_line font text (width - indent)
    if fr.1 < 0 then
      ([{ text := text, x := initX + (indent : Int), y := initY }],
        initY + (fr.2 : Int))
    else
      let e1 := fr.1.toNat
      let bottom := font.bboxBottom (strTake text e1)
      let line1 : DrawnLine :=
        { text := strTake text e1, x := initX + (indent : Int), y := initY }
      if e1 = text.length then ([line1], initY + (bottom : Int))
      else
        let secondY := initY + (bottom : Int) + (linespacing : Int)
        let remaining := strDrop text (secondLineStart text e1)
        let sr := find_end_of_line font remaining width
        let line2 : DrawnLine :=
          { text := secondLineText font remaining width, x := initX, y := secondY }
        ([line1, line2], secondY + (sr.2 : Int))

/-- A font whose glyphs are all 10 pixels wide and 10 pixels tall
(`getbbox` width `10 * len(s)`, bottom 10). -/
def constFont : FontMetrics :=
  { bboxWidth := fun s => 10 * s.length
    bboxBottom := fun _ => 10 }

/-- A break index accepted by the `find_end_of_line` loop measures a prefix
strictly narrower than the available width. -/
theorem findEOLLoop_fits (font : FontMetrics) (s : String) (w : Nat) :
    ∀ k b, 0 ≤ (findEOLLoop font s w k b).1 →
      font.bboxWidth (strTake s (findEOLLoop font s w k b).1.toNat) < w := by
  intro k
  induction k with
  | zero => intro b h; simp [findEOLLoop] at h
  | succ e ih =>
    intro b h
    by_cases hc : (e = s.length ∨ pyIsSpace (pyCharAt s ((e : Int) - 1)))
    · by_cases hw : font.bboxWidth (strTake s e) < w
      · simp [findEOLLoop, hc, hw]
      · simp only [findEOLLoop, if_pos hc, if_neg hw] at h ⊢
        exact ih _ h
    · simp only [findEOLLoop, if_neg hc] at h ⊢
      exact ih _ h

/-- The possible shapes of the second-line text: either a fitting prefix of
the remainder with `"..."` appended, or the remainder verbatim. -/
theorem secondLineText_cases (font : FontMetrics) (remaining : String)
    (width : Nat) :
    (∃ pre, secondLineText font remaining width = pre ++ "..." ∧
      font.bboxWidth pre < width) ∨
    secondLineText font remaining width = remaining := by
  unfold secondLineText
  split_ifs with h
  · exact Or.inl ⟨_, rfl, findEOLLoop_fits font remaining width _ _ (le_of_lt h.1)⟩
  · exact Or.inr rfl

/-- C4 counterexample: at text `"c aaa bb"`, a 10-pixel-per-glyph font and
available width 48, `draw_text_wrapped` truncates the second line to
`"aaa ..."` — whose measured bounding-box width is 70 > 48 — contradicting
the claim that no drawn line's measured width exceeds the available width
and that an ellipsized second line still fits within it. -/
theorem wrapped_line_exceeds_width :
    (draw_text_wrapped constFont "c aaa bb" 0 0 48 0 0).1 =
      [{ text := "c ", x := 0, y := 0 },
        { text := "aaa ...", x := 0, y := 10 }] ∧
    constFont.bboxWidth "aaa ..." = 70 ∧
    ¬ (constFont.bboxWidth "aaa ..." ≤ 48) := by
  refine ⟨?_, by decide, by decide⟩
  rfl

/-- C4 (amended): `draw_text_wrapped` draws at most two lines, and every
drawn line either measures strictly below the available width, or is an
ellipsized line whose prefix before the appended `"..."` measures strictly
below the available width (the suffixed line itself may exceed it), or is a
verbatim suffix of the input text drawn as deliberate overflow when not even
one word fits. -/
theorem text_wrap_sound (font : FontMetrics) (text : String)
    (initX initY : Int) (width linespacing indent : Nat) :
    (draw_text_wrapped font text initX initY width linespacing indent).1.length ≤ 2 ∧
    ∀ dl ∈ (draw_text_wrapped font text initX initY width linespacing indent).1,
      font.bboxWidth dl.text < width ∨
      (∃ pre, dl.text = pre ++ "..." ∧ font.bboxWidth pre < width) ∨
      dl.text.toList <:+ text.toList := by
  have hfit : ¬ (find_end_of_line font text (width - indent)).1 < 0 →
      font.bboxWidth
        (strTake text (find_end_of_line font text (width - indent)).1.toNat) <
        width := fun h2 =>
    lt_of_lt_of_le
      (findEOLLoop_fits font text (width - indent) _ _ (not_lt.mp h2))
      (Nat.sub_le width indent)
  by_cases h1 : text.toList.all pyIsSpace = true
  · have hval :
        (draw_text_wrapped font text initX initY width linespacing indent).1 =
          [] := by
      unfold draw_text_wrapped
      rw [if_pos h1]
    rw [hval]
    exact ⟨by simp, by simp⟩
  · by_cases h2 : (find_end_of_line font text (width - indent)).1 < 0
    · have hval :
          (draw_text_wrapped font text initX initY width linespacing indent).1 =
            [{ text := text, x := initX + (indent : Int), y := initY }] := by
        unfold draw_text_wrapped
        rw [if_neg h1, if_pos h2]
      rw [hval]
      refine ⟨by simp, ?_⟩
      intro dl hdl
      simp only [List.mem_singleton] at hdl
      subst hdl
      exact Or.inr (Or.inr (List.suffix_refl _))
    · by_cases h3 :
          (find_end_of_line font text (width - indent)).1.toNat = text.length
      · have hval :
            (draw_text_wrapped font text initX initY width linespacing indent).1 =
              [{ text :=
                  strTake text (find_end_of_line font text (width - indent)).1.toNat,
                 x := initX + (indent : Int), y := initY }] := by
          unfold draw_text_wrapped
          rw [if_neg h1, if_neg h2, if_pos h3]
        rw [hval]
        refine ⟨by simp, ?_⟩
        intro dl hdl
        simp only [List.mem_singleton] at hdl
        subst hdl
        exact Or.inl (hfit h2)
      · have hval :
            (draw_text_wrapped font text initX initY width linespacing indent).1 =
              [{ text :=
                  strTake text (find_end_of_line font text (width - indent)).1.toNat,
                 x := initX + (indent : Int), y := initY },
               { text :=
                  secondLineText font
                    (strDrop text (secondLineStart text
                      (find_end_of_line font text (width - indent)).1.toNat)) width,
                 x := initX,
                 y := initY +
                   (font.bboxBottom (strTake text
                     (find_end_of_line font text (width - indent)).1.toNat) : Int) +
                   (linespacing : Int) }] := by
          unfold draw_text_wrapped
          rw [if_neg h1, if_neg h2, if_neg h3]
        rw [hval]
        refine ⟨by simp, ?_⟩
        intro dl hdl
        simp only [List.mem_cons, List.mem_singleton, List.not_mem_nil,
          or_false] at hdl
        rcases hdl with hdl | hdl
        · subst hdl
          exact Or.inl (hfit h2)
        · subst hdl
          rcases secondLineText_cases font
              (strDrop text (secondLineStart text
                (find_end_of_line font text (width - indent)).1.toNat)) width with
            ⟨pre, hp, hw⟩ | heq
          · exact Or.inr (Or.inl ⟨pre, hp, hw⟩)
          · refine Or.inr (Or.inr ?_)
            show (secondLineText font _ width).toList <:+ text.toList
            rw [heq]
            exact List.drop_suffix _ _

/-- Witness for `text_wrap_sound`: the single drawn line at text `"hi"` and
width 100 satisfies the width disjunction. -/
theorem text_wrap_sound_witness :
    constFont.bboxWidth (DrawnLine.mk "hi" 0 0).text < 100 ∨
    (∃ pre, (DrawnLine.mk "hi" 0 0).text = pre ++ "..." ∧
      constFont.bboxWidth pre < 100) ∨
    (DrawnLine.mk "hi" 0 0).text.toList <:+ "hi".toList :=
  (text_wrap_sound constFont "hi" 0 0 100 0 0).2
    (DrawnLine.mk "hi" 0 0) (by decide)

/-- The `self.dir_path` of `Draw` (`draw.py` 34), relative to the working
directory. -/
def albumArtDir : String := "cache/album_art"

/-- Mirrors `Draw.dither_album_art` (`draw.py` 280-309) over a
file-existence predicate `fs`. Returns the dithered image path (or `None`)
together with the `logger.error` lines emitted. When the resize or palette
artifact is missing the error is logged and `None` is returned; otherwise
the `convert` subprocess (run with `check=True`) produces the dither file,
so the post-run existence check passes. -/
def dither_album_art (fs : String → Bool) (main_image_name : String) :
    Option String × List String :=
  let palette_path := albumArtDir ++ "/palette.PNG"
  let resize_path := albumArtDir ++ "/" ++ main_image_name ++ "_resize.PNG"
  let dither_path := albumArtDir ++ "/" ++ main_image_name ++ "_dither.PNG"
  if !fs resize_path || !fs palette_path then
    (none,
      ["Error: File " ++ (if !fs resize_path then resize_path else palette_path) ++
        " not found."])
  else
    let fsAfterConvert : String → Bool := fun p => p == dither_path || fs p
    if !fsAfterConvert dither_path then
      (none, ["Error: File " ++ dither_path ++ " not found."])
    else (some dither_path, [])

/-- A Python call observed from outside: a normal return or an uncaught
exception. -/
inductive PyResult (α : Type) where
  | ok (val : α)
  | exn (msg : String)
  deriving Repr, DecidableEq

/-- The exception raised by `PIL.Image.open(None)` when
`dither_album_art` returned `None`. -/
def openNoneExn : String := "AttributeError: NoneType object has no attribute seek"

/-- Mirrors `Draw.draw_album_image` (`draw.py` 143-172) in 4-gray-scale
mode over a file-existence predicate. With `convert_image` set, the album
file is opened (raising if absent), then the art is dithered; the returned
filepath is passed straight to `Image.open`, so a `None` from
`dither_album_art` raises an uncaught exception. The second component
carries the `logger.error` lines emitted by the dither step. -/
def draw_album_image (fs : String → Bool) (four_gray_scale : Bool)
    (image_file_name image_file_path : String) (convert_image : Bool) :
    PyResult Unit × List String :=
  if convert_image then
    if !fs (image_file_path ++ image_file_name) then
      (PyResult.exn ("FileNotFoundError: " ++ image_file_path ++ image_file_name), [])
    else if four_gray_scale then
      let d := if strContains image_file_name "NA" then dither_album_art fs "NA"
        else dither_album_art fs "AlbumImage"
      match d.1 with
      | none => (PyResult.exn openNoneExn, d.2)
      | some _ => (PyResult.ok (), d.2)
    else (PyResult.ok (), [])
  else (PyResult.ok (), [])

/-- A filesystem holding only the resized album image — the palette
artifact is missing. -/
def fsNoPalette : String → Bool :=
  fun p => p == "cache/album_art/AlbumImage_resize.PNG"

/-- C7 counterexample: in 4-gray-scale mode with the palette artifact
missing, `dither_album_art` logs the error and returns `None`, but
`draw_album_image` — called as `Calendar.build_album_art` calls it — then
feeds that `None` to `Image.open`, raising an uncaught exception instead of
substituting a placeholder image: the render cycle aborts. -/
theorem dither_missing_aborts_render :
    draw_album_image fsNoPalette true "AlbumImage_resize.PNG"
        "cache/album_art/" true =
      (PyResult.exn openNoneExn,
        ["Error: File cache/album_art/palette.PNG not found."]) := by
  decide

/-- C7 (amended): in 4-gray-scale mode, whenever the dither step's source or
palette artifact is missing, the error is logged and `dither_album_art`
returns `None`; the caller `draw_album_image` does not substitute a
placeholder but raises an uncaught exception from `Image.open(None)`,
aborting the render cycle. -/
theorem dither_missing_artifact (fs : String → Bool)
    (image_file_name image_file_path : String)
    (hopen : fs (image_file_path ++ image_file_name) = true)
    (hna : strContains image_file_name "NA" = false)
    (hmiss : fs "cache/album_art/AlbumImage_resize.PNG" = false ∨
      fs "cache/album_art/palette.PNG" = false) :
    (dither_album_art fs "AlbumImage").1 = none ∧
    (dither_album_art fs "AlbumImage").2 ≠ [] ∧
    draw_album_image fs true image_file_name image_file_path true =
      (PyResult.exn openNoneExn, (dither_album_art fs "AlbumImage").2) := by
  have hd : (dither_album_art fs "AlbumImage").1 = none ∧
      (dither_album_art fs "AlbumImage").2 ≠ [] := by
    unfold dither_album_art
    rcases hmiss with hm | hm <;> simp [albumArtDir, hm]
  refine ⟨hd.1, hd.2, ?_⟩
  unfold draw_album_image
  simp [hopen, hna, hd.1]

/-- Witness for `dither_missing_artifact` at the concrete filesystem missing
only the palette. -/
theorem dither_missing_artifact_witness :
    (dither_album_art fsNoPalette "AlbumImage").1 = none ∧
    (dither_album_art fsNoPalette "AlbumImage").2 ≠ [] ∧
    draw_album_image fsNoPalette true "AlbumImage_resize.PNG"
        "cache/album_art/" true =
      (PyResult.exn openNoneExn, (dither_album_art fsNoPalette "AlbumImage").2) :=
  dither_missing_artifact fsNoPalette "AlbumImage_resize.PNG"
    "cache/album_art/" (by decide) (by decide) (Or.inr (by decide))

end EPaperSpotify
